import Mathlib

/-!
Verification of the University Course Management System
(`src/app/database_app.py`) against its natural-language specification.

The relational store is embedded shallowly: each table is a list of rows,
and each operation of the Python application becomes a Lean function over a
`DB` value.  A mutating operation returns `DB × Except DBError α`; on the
error path the returned store is the caller's original store, which is
exactly the `rollback` the Python code performs before re-raising.
-/

namespace UniversityDB

/-- Lifecycle status of an `Enrollment` row: `'Enrolled'`, `'Completed'` or
`'Withdrawn'` in the SQLite schema. -/
inductive EnrollmentStatus where
  | enrolled
  | completed
  | withdrawn
deriving DecidableEq

/-- Row of the `Student` table (the fields the core operations touch). -/
structure Student where
  studentID : Nat
  firstName : String
  lastName : String
  email : String
  programID : Nat
  status : String
deriving DecidableEq

/-- Row of the `Program` table. -/
structure Program where
  programID : Nat
  programName : String
  departmentID : Nat
deriving DecidableEq

/-- Row of the `Course` table. -/
structure Course where
  courseID : Nat
  courseCode : String
  courseName : String
  credits : Nat
  level : String
  departmentID : Nat
deriving DecidableEq

/-- Row of the `CourseOffering` table. -/
structure CourseOffering where
  offeringID : Nat
  courseID : Nat
  instructorID : Nat
  semester : String
  year : Int
  room : String
  maxStudents : Nat
  currentEnrollment : Nat
deriving DecidableEq

/-- Row of the `Enrollment` table. `grade` is `none` while no grade has been
assigned (SQL `NULL`). -/
structure Enrollment where
  enrollmentID : Nat
  studentID : Nat
  offeringID : Nat
  status : EnrollmentStatus
  grade : Option String
deriving DecidableEq

/-- The relational store: one list per table, plus the auto-increment
counter from which SQLite assigns the next `EnrollmentID` (read back by the
application through `cursor.lastrowid`). -/
structure DB where
  students : List Student
  programs : List Program
  courses : List Course
  offerings : List CourseOffering
  enrollments : List Enrollment
  nextEnrollmentID : Nat
deriving DecidableEq

/-- Typed counterpart of the exception messages raised by
`database_app.py`, following the error taxonomy of spec section 7. -/
inductive DBError where
  /-- message `Course offering not found` -/
  | offeringNotFound
  /-- message `Course offering is full` -/
  | capacityExceeded
  /-- message `Student is already enrolled in this course` -/
  | duplicateEnrollment
  /-- message `Invalid grade. Must be one of: ...` -/
  | invalidGrade
  /-- message `Enrollment not found` -/
  | enrollmentNotFound
  /-- message `Enrollment not found or already completed` -/
  | enrollmentNotFoundOrCompleted
deriving DecidableEq

instance {ε α : Type} [DecidableEq ε] [DecidableEq α] : DecidableEq (Except ε α) := fun a b =>
  match a, b with
  | Except.ok x, Except.ok y =>
      if h : x = y then isTrue (by rw [h]) else isFalse (by intro hc; cases hc; exact h rfl)
  | Except.error x, Except.error y =>
      if h : x = y then isTrue (by rw [h]) else isFalse (by intro hc; cases hc; exact h rfl)
  | Except.ok _, Except.error _ => isFalse (by intro hc; cases hc)
  | Except.error _, Except.ok _ => isFalse (by intro hc; cases hc)

/-- The allowed grade values of `update_grade`
(`valid_grades = ['A', 'B', 'C', 'D', 'F', 'P', 'W']`). -/
def validGrades : List String := ["A", "B", "C", "D", "F", "P", "W"]

/-- Modelled from the spec: the store-side trigger declared in
`schema/create_schema.sql` (that file is not part of `src/`; the
application only notes `Trigger will automatically update
CurrentEnrollment`).  Per spec section 4.1 step 5, inserting an Enrollment
row increments the offering's `CurrentEnrollment` inside the same
transaction. -/
def applyEnrollTrigger (offs : List CourseOffering) (offeringId : Nat) :
    List CourseOffering :=
  offs.map (fun o =>
    if o.offeringID == offeringId then
      { o with currentEnrollment := o.currentEnrollment + 1 }
    else o)

/-- Embedding of `EnrollmentOperations.enroll_student`: look the offering
up, check capacity (`CurrentEnrollment >= MaxStudents` means full), check
for an existing `(StudentID, OfferingID)` row, then insert the new
`'Enrolled'` row (the trigger increments the counter) and return
`lastrowid`.  Every failure path rolls the transaction back, so it returns
the original store. -/
def enroll_student (db : DB) (studentId offeringId : Nat) :
    DB × Except DBError Nat :=
  match db.offerings.find? (fun o => o.offeringID == offeringId) with
  | none => (db, Except.error DBError.offeringNotFound)
  | some off =>
    if off.currentEnrollment ≥ off.maxStudents then
      (db, Except.error DBError.capacityExceeded)
    else if db.enrollments.any
        (fun e => e.studentID == studentId && e.offeringID == offeringId) then
      (db, Except.error DBError.duplicateEnrollment)
    else
      let eid := db.nextEnrollmentID
      let row : Enrollment :=
        ⟨eid, studentId, offeringId, EnrollmentStatus.enrolled, none⟩
      ({ db with
          enrollments := db.enrollments ++ [row],
          offerings := applyEnrollTrigger db.offerings offeringId,
          nextEnrollmentID := eid + 1 },
       Except.ok eid)

/-- Embedding of `EnrollmentOperations.update_grade`: validate the grade
first, then run the unconditional `UPDATE ... WHERE EnrollmentID = ?`; a
zero rowcount raises (rollback), otherwise commit and return `True`. -/
def update_grade (db : DB) (enrollmentId : Nat) (grade : String) :
    DB × Except DBError Bool :=
  if grade ∉ validGrades then
    (db, Except.error DBError.invalidGrade)
  else
    if db.enrollments.countP (fun e => e.enrollmentID == enrollmentId) = 0 then
      (db, Except.error DBError.enrollmentNotFound)
    else
      ({ db with
          enrollments := db.enrollments.map (fun e =>
            if e.enrollmentID == enrollmentId then
              { e with grade := some grade, status := EnrollmentStatus.completed }
            else e) },
       Except.ok true)

/-- Embedding of `EnrollmentOperations.withdraw_from_course`: the
conditional `UPDATE ... WHERE EnrollmentID = ? AND Status = 'Enrolled'`
sets `Status = 'Withdrawn'` and `Grade = 'W'`; a zero rowcount raises
(rollback), otherwise commit and return `True`. -/
def withdraw_from_course (db : DB) (enrollmentId : Nat) :
    DB × Except DBError Bool :=
  if db.enrollments.countP (fun e =>
      e.enrollmentID == enrollmentId && e.status == EnrollmentStatus.enrolled) = 0 then
    (db, Except.error DBError.enrollmentNotFoundOrCompleted)
  else
    ({ db with
        enrollments := db.enrollments.map (fun e =>
          if e.enrollmentID == enrollmentId && e.status == EnrollmentStatus.enrolled then
            { e with status := EnrollmentStatus.withdrawn, grade := some "W" }
          else e) },
     Except.ok true)

/-- The grade-to-point mapping used by every GPA-related query
(`CASE e.Grade WHEN 'A' THEN 4.0 ... ELSE NULL END`). -/
def gradePoints : String → Option ℚ
  | "A" => some 4
  | "B" => some 3
  | "C" => some 2
  | "D" => some 1
  | "F" => some 0
  | _ => none

/-- SQLite `ROUND(x, 2)` on the exact rational value. -/
def round2 (q : ℚ) : ℚ := ((round (q * 100) : ℤ) : ℚ) / 100

/-- SQLite `ROUND(x, 1)` on the exact rational value. -/
def round1 (q : ℚ) : ℚ := ((round (q * 10) : ℤ) : ℚ) / 10

/-- Result row of `StudentOperations.calculate_gpa`.  `SUM` and `AVG` over
an empty set are SQL `NULL`, hence the `Option` fields. -/
structure GpaRow where
  coursesCompleted : Nat
  totalCredits : Option Nat
  gpa : Option ℚ
deriving DecidableEq

/-- The `JOIN CourseOffering co ON e.OfferingID = co.OfferingID JOIN
Course c ON co.CourseID = c.CourseID` chain: the course row an enrollment
resolves to, if its offering and that offering's course exist. -/
def enrollmentCourse (db : DB) (e : Enrollment) : Option Course :=
  (db.offerings.find? (fun o => o.offeringID == e.offeringID)).bind
    (fun off => db.courses.find? (fun c => c.courseID == off.courseID))

/-- The `Enrollment JOIN CourseOffering JOIN Course` step of
`calculate_gpa`, restricted by `WHERE e.StudentID = ? AND e.Grade IS NOT
NULL`: each surviving enrollment is paired with its course row. -/
def gpaJoinFun (db : DB) (studentId : Nat) (e : Enrollment) :
    Option (Enrollment × Course) :=
  if e.studentID == studentId && e.grade.isSome then
    (enrollmentCourse db e).map (fun c => (e, c))
  else none

/-- Embedding of `StudentOperations.calculate_gpa`: over the joined,
grade-bearing rows of the student it computes `COUNT(e.EnrollmentID)`,
`SUM(c.Credits)` and `ROUND(AVG(CASE e.Grade ... ELSE NULL END), 2)`
(`AVG` ignores the `NULL`s produced for grades outside A–F). -/
def calculate_gpa (db : DB) (studentId : Nat) : GpaRow :=
  let rows := db.enrollments.filterMap (gpaJoinFun db studentId)
  let pts := rows.filterMap (fun r => r.1.grade.bind gradePoints)
  { coursesCompleted := rows.length,
    totalCredits :=
      if rows.isEmpty then none
      else some ((rows.map (fun r => r.2.credits)).sum),
    gpa :=
      if pts.isEmpty then none
      else some (round2 (pts.sum / (pts.length : ℚ))) }

/-- Result row of `ReportingOperations.students_at_risk`. -/
structure RiskRow where
  studentID : Nat
  studentName : String
  email : String
  programName : String
  coursesCompleted : Nat
  gpa : ℚ
  failedCourses : Nat
deriving DecidableEq

/-- The group that `students_at_risk` builds for one student: `Student
JOIN Program JOIN Enrollment` restricted by `WHERE e.Grade IS NOT NULL AND
s.Status = 'Active'`, grouped by student, with the `HAVING GPA < ?` filter
(`NULL` GPAs never satisfy the comparison). -/
def riskRowOf (db : DB) (threshold : ℚ) (s : Student) : Option RiskRow :=
  if s.status == "Active" then
    match db.programs.find? (fun p => p.programID == s.programID) with
    | none => none
    | some p =>
      let graded := db.enrollments.filter
        (fun e => e.studentID == s.studentID && e.grade.isSome)
      if graded.isEmpty then none
      else
        let pts := graded.filterMap (fun e => e.grade.bind gradePoints)
        if pts.isEmpty then none
        else
          let g := round2 (pts.sum / (pts.length : ℚ))
          if g < threshold then
            some { studentID := s.studentID,
                   studentName := s.firstName ++ " " ++ s.lastName,
                   email := s.email,
                   programName := p.programName,
                   coursesCompleted := graded.length,
                   gpa := g,
                   failedCourses := graded.countP (fun e => e.grade == some "F") }
          else none
  else none

/-- The `ORDER BY GPA ASC` ordering of `students_at_risk`. -/
def riskLE (a b : RiskRow) : Prop := a.gpa ≤ b.gpa

instance : DecidableRel riskLE := fun a b =>
  inferInstanceAs (Decidable (a.gpa ≤ b.gpa))

instance : IsTotal RiskRow riskLE := ⟨fun a b => le_total a.gpa b.gpa⟩

instance : IsTrans RiskRow riskLE := ⟨fun _ _ _ h1 h2 => le_trans h1 h2⟩

/-- Embedding of `ReportingOperations.students_at_risk`: one group per
qualifying student, ordered ascending by the rounded GPA. -/
def students_at_risk (db : DB) (threshold : ℚ) : List RiskRow :=
  List.insertionSort riskLE (db.students.filterMap (riskRowOf db threshold))

/-- Result row of `ReportingOperations.semester_enrollment_report`. -/
structure SemesterReport where
  coursesOffered : Nat
  uniqueStudents : Nat
  totalEnrollments : Nat
  totalCapacity : Option Nat
  totalEnrolled : Option Nat
  overallFillRate : Option ℚ
deriving DecidableEq

/-- The `CourseOffering LEFT JOIN Enrollment ON co.OfferingID =
e.OfferingID` row set: an offering with no enrollments still yields one
row, with the enrollment side `NULL`. -/
def leftJoinRows (offs : List CourseOffering) (es : List Enrollment) :
    List (CourseOffering × Option Enrollment) :=
  match offs with
  | [] => []
  | o :: rest =>
    (let ms := es.filter (fun e => e.offeringID == o.offeringID)
     if ms.isEmpty then [(o, none)] else ms.map (fun e => (o, some e))) ++
      leftJoinRows rest es

/-- Embedding of `ReportingOperations.semester_enrollment_report`: the six
aggregates of the query, computed over the left-join row set of the
term's offerings.  `SUM` over no rows is `NULL`, and SQLite yields `NULL`
for the fill rate when the capacity sum is zero (division by zero). -/
def semester_enrollment_report (db : DB) (semester : String) (year : Int) :
    SemesterReport :=
  let offs := db.offerings.filter (fun o => o.semester == semester && o.year == year)
  let rows := leftJoinRows offs db.enrollments
  let cap := (rows.map (fun r => r.1.maxStudents)).sum
  let enr := (rows.map (fun r => r.1.currentEnrollment)).sum
  { coursesOffered := (rows.map (fun r => r.1.offeringID)).dedup.length,
    uniqueStudents :=
      (rows.filterMap (fun r => r.2.map (fun e => e.studentID))).dedup.length,
    totalEnrollments := (rows.filterMap (fun r => r.2)).length,
    totalCapacity := if rows.isEmpty then none else some cap,
    totalEnrolled := if rows.isEmpty then none else some enr,
    overallFillRate :=
      if rows.isEmpty ∨ cap = 0 then none
      else some (round1 ((enr : ℚ) / (cap : ℚ) * 100)) }

/-! Concrete sample store used by the witness theorems. -/

/-- Offering 10, Fall 2024, capacity 10, counter 2. -/
def off10 : CourseOffering := ⟨10, 100, 1, "Fall", 2024, "R1", 10, 2⟩

/-- Offering 11, Fall 2024, capacity 5, counter 5: full. -/
def off11 : CourseOffering := ⟨11, 101, 1, "Fall", 2024, "R2", 5, 5⟩

/-- Offering 12, Spring 2025, capacity 3, counter 1. -/
def off12 : CourseOffering := ⟨12, 101, 2, "Spring", 2025, "R3", 3, 1⟩

/-- Course 100, 3 credits. -/
def crs100 : Course := ⟨100, "CS1", "Intro", 3, "UG", 1⟩

/-- Course 101, 4 credits. -/
def crs101 : Course := ⟨101, "CS2", "Data", 4, "UG", 1⟩

/-- Student 1, Active. -/
def st1 : Student := ⟨1, "Ada", "Li", "ada@u.edu", 1, "Active"⟩

/-- Student 2, Active. -/
def st2 : Student := ⟨2, "Ben", "Wu", "ben@u.edu", 1, "Active"⟩

/-- Program 1. -/
def pr1 : Program := ⟨1, "CS", 1⟩

/-- Enrollment 1: student 1 completed offering 10 with grade A. -/
def en1 : Enrollment := ⟨1, 1, 10, EnrollmentStatus.completed, some "A"⟩

/-- Enrollment 2: student 1 completed offering 11 with grade B. -/
def en2 : Enrollment := ⟨2, 1, 11, EnrollmentStatus.completed, some "B"⟩

/-- Enrollment 3: student 2 enrolled in offering 10, ungraded. -/
def en3 : Enrollment := ⟨3, 2, 10, EnrollmentStatus.enrolled, none⟩

/-- Enrollment 4: student 2 enrolled in offering 12, ungraded. -/
def en4 : Enrollment := ⟨4, 2, 12, EnrollmentStatus.enrolled, none⟩

/-- The sample store. -/
def demoDB : DB :=
  ⟨[st1, st2], [pr1], [crs100, crs101], [off10, off11, off12],
   [en1, en2, en3, en4], 5⟩

/-! Claim theorems. -/

/-- Claim C1: a successful `Enroll(studentID, offeringID)` appends exactly
one new Enrollment row (Status=Enrolled, no Grade), whose identifier is
the returned value, increments the offering's `CurrentEnrollment` counter
and touches nothing else; a failing call returns the store exactly as it
was — the transaction rolls back completely. -/
theorem enroll_student_atomic (db : DB) (sid oid : Nat) :
    (∀ db' eid, enroll_student db sid oid = (db', Except.ok eid) →
       eid = db.nextEnrollmentID ∧
       db'.enrollments = db.enrollments ++
         [⟨eid, sid, oid, EnrollmentStatus.enrolled, none⟩] ∧
       db'.offerings = db.offerings.map (fun o =>
         if o.offeringID = oid then
           { o with currentEnrollment := o.currentEnrollment + 1 }
         else o) ∧
       db'.students = db.students ∧ db'.programs = db.programs ∧
       db'.courses = db.courses ∧
       db'.nextEnrollmentID = db.nextEnrollmentID + 1) ∧
    (∀ db' err, enroll_student db sid oid = (db', Except.error err) →
       db' = db) := by
  constructor
  · intro db' eid h
    cases hf : db.offerings.find? (fun o => o.offeringID == oid) with
    | none => simp only [enroll_student, hf] at h; simp at h
    | some off =>
      simp only [enroll_student, hf] at h
      by_cases hc : off.currentEnrollment ≥ off.maxStudents
      · rw [if_pos hc] at h; simp at h
      · rw [if_neg hc] at h
        by_cases hd : db.enrollments.any
            (fun e => e.studentID == sid && e.offeringID == oid) = true
        · rw [if_pos hd] at h; simp at h
        · rw [if_neg hd] at h
          injection h with h1 h2
          injection h2 with h2
          subst h2
          subst h1
          refine ⟨rfl, rfl, ?_, rfl, rfl, rfl, rfl⟩
          simp only [applyEnrollTrigger]
          exact List.map_congr_left (fun o _ => by
            by_cases ho : o.offeringID = oid
            · simp [ho]
            · simp [ho])
  · intro db' err h
    cases hf : db.offerings.find? (fun o => o.offeringID == oid) with
    | none => simp only [enroll_student, hf] at h; injection h with h1 _; exact h1.symm
    | some off =>
      simp only [enroll_student, hf] at h
      by_cases hc : off.currentEnrollment ≥ off.maxStudents
      · rw [if_pos hc] at h; injection h with h1 _; exact h1.symm
      · rw [if_neg hc] at h
        by_cases hd : db.enrollments.any
            (fun e => e.studentID == sid && e.offeringID == oid) = true
        · rw [if_pos hd] at h; injection h with h1 _; exact h1.symm
        · rw [if_neg hd] at h; simp at h

/-- Witness for C1 at the sample store: enrolling student 1 in offering 12
succeeds with the appended row, and the failing call on the full offering
11 leaves the store untouched. -/
theorem enroll_student_atomic_witness :
    (enroll_student demoDB 1 12).1.enrollments =
      demoDB.enrollments ++
        [⟨demoDB.nextEnrollmentID, 1, 12, EnrollmentStatus.enrolled, none⟩] ∧
    (enroll_student demoDB 1 11).1 = demoDB :=
  ⟨((enroll_student_atomic demoDB 1 12).1 (enroll_student demoDB 1 12).1
      demoDB.nextEnrollmentID (by decide)).2.1,
   (enroll_student_atomic demoDB 1 11).2 (enroll_student demoDB 1 11).1
      DBError.capacityExceeded (by decide)⟩

/-- Claim C2: enrolling into an existing offering whose
`CurrentEnrollment` has reached `MaxStudents` fails with the capacity
error and leaves the store unchanged. -/
theorem enroll_student_capacity_exceeded (db : DB) (sid oid : Nat)
    (off : CourseOffering)
    (hfind : db.offerings.find? (fun o => o.offeringID == oid) = some off)
    (hfull : off.currentEnrollment ≥ off.maxStudents) :
    enroll_student db sid oid = (db, Except.error DBError.capacityExceeded) := by
  simp only [enroll_student, hfind]
  rw [if_pos hfull]

/-- Witness for C2: offering 11 of the sample store is full, so enrolling
student 1 there fails with the capacity error and returns the store
unchanged. -/
theorem enroll_student_capacity_exceeded_witness :
    demoDB.offerings.find? (fun o => o.offeringID == 11) = some off11 ∧
      off11.currentEnrollment ≥ off11.maxStudents ∧
      enroll_student demoDB 1 11 =
        (demoDB, Except.error DBError.capacityExceeded) :=
  ⟨by decide, by decide,
   enroll_student_capacity_exceeded demoDB 1 11 off11 (by decide) (by decide)⟩

/-- The enrollment trigger preserves offering identifiers: after it runs,
looking the target offering up finds the same row with its counter
incremented. -/
theorem find?_applyEnrollTrigger (offs : List CourseOffering) (oid : Nat) :
    (applyEnrollTrigger offs oid).find? (fun o => o.offeringID == oid) =
      (offs.find? (fun o => o.offeringID == oid)).map
        (fun o => { o with currentEnrollment := o.currentEnrollment + 1 }) := by
  induction offs with
  | nil => rfl
  | cons o rest ih =>
    by_cases h : o.offeringID = oid
    · simp [applyEnrollTrigger, List.find?_cons, h]
    · simp only [applyEnrollTrigger, List.map_cons] at ih ⊢
      rw [if_neg (by simpa using h)]
      rw [List.find?_cons_of_neg _ (by simpa using h),
        List.find?_cons_of_neg _ (by simpa using h)]
      exact ih

/-- The successful branch of `enroll_student`, stated as an equation. -/
theorem enroll_student_ok (db : DB) (sid oid : Nat) (off : CourseOffering)
    (hfind : db.offerings.find? (fun o => o.offeringID == oid) = some off)
    (hcap : ¬ off.currentEnrollment ≥ off.maxStudents)
    (hdup : db.enrollments.any
      (fun e => e.studentID == sid && e.offeringID == oid) = false) :
    enroll_student db sid oid =
      ({ db with
          enrollments := db.enrollments ++
            [⟨db.nextEnrollmentID, sid, oid, EnrollmentStatus.enrolled, none⟩],
          offerings := applyEnrollTrigger db.offerings oid,
          nextEnrollmentID := db.nextEnrollmentID + 1 },
       Except.ok db.nextEnrollmentID) := by
  simp only [enroll_student, hfind]
  rw [if_neg hcap, if_neg (by simp [hdup])]

/-- The duplicate-check branch of `enroll_student`. -/
theorem enroll_student_duplicate (db : DB) (sid oid : Nat)
    (off : CourseOffering)
    (hfind : db.offerings.find? (fun o => o.offeringID == oid) = some off)
    (hcap : ¬ off.currentEnrollment ≥ off.maxStudents)
    (hdup : db.enrollments.any
      (fun e => e.studentID == sid && e.offeringID == oid) = true) :
    enroll_student db sid oid = (db, Except.error DBError.duplicateEnrollment) := by
  simp only [enroll_student, hfind]
  rw [if_neg hcap, if_pos hdup]

/-- The capacity branch of `enroll_student`. -/
theorem enroll_student_full (db : DB) (sid oid : Nat) (off : CourseOffering)
    (hfind : db.offerings.find? (fun o => o.offeringID == oid) = some off)
    (hfull : off.currentEnrollment ≥ off.maxStudents) :
    enroll_student db sid oid = (db, Except.error DBError.capacityExceeded) := by
  simp only [enroll_student, hfind]
  rw [if_pos hfull]

/-- Counterexample to claim C3 as stated: in the sample store, offering 12
exists and has available capacity, yet the first of two Enroll calls for
the pair (student 2, offering 12) does not succeed — student 2 is already
enrolled there, so the first call already fails with the duplicate
error. -/
theorem enroll_twice_counterexample :
    demoDB.offerings.find? (fun o => o.offeringID == 12) = some off12 ∧
    off12.currentEnrollment < off12.maxStudents ∧
    (enroll_student demoDB 2 12).2 = Except.error DBError.duplicateEnrollment := by
  refine ⟨by decide, by decide, by decide⟩

/-- Claim C3, amended: for a student not already enrolled and an existing
offering with available capacity, the first Enroll call succeeds; the
second call with the same pair fails — with the duplicate error when a
seat is still free after the first enrollment, and with the capacity
error when the first enrollment filled the offering — leaves the store as
the first call left it, and exactly one Enrollment row for the pair
exists afterward. -/
theorem enroll_twice_amended (db : DB) (sid oid : Nat) (off : CourseOffering)
    (hfind : db.offerings.find? (fun o => o.offeringID == oid) = some off)
    (hcap : off.currentEnrollment < off.maxStudents)
    (hnew : ∀ e ∈ db.enrollments, ¬(e.studentID = sid ∧ e.offeringID = oid)) :
    ∃ db₁ eid,
      enroll_student db sid oid = (db₁, Except.ok eid) ∧
      (enroll_student db₁ sid oid).1 = db₁ ∧
      (enroll_student db₁ sid oid).2 =
        Except.error (if off.currentEnrollment + 1 < off.maxStudents then
          DBError.duplicateEnrollment else DBError.capacityExceeded) ∧
      db₁.enrollments.countP
        (fun e => e.studentID == sid && e.offeringID == oid) = 1 := by
  have hdup : db.enrollments.any
      (fun e => e.studentID == sid && e.offeringID == oid) = false := by
    rw [List.any_eq_false]
    intro e he
    simpa using hnew e he
  have h1 := enroll_student_ok db sid oid off hfind (not_le.mpr hcap) hdup
  refine ⟨_, _, h1, ?_⟩
  set row : Enrollment :=
    ⟨db.nextEnrollmentID, sid, oid, EnrollmentStatus.enrolled, none⟩ with hrow
  have hfind1 : (applyEnrollTrigger db.offerings oid).find?
      (fun o => o.offeringID == oid) =
      some { off with currentEnrollment := off.currentEnrollment + 1 } := by
    rw [find?_applyEnrollTrigger, hfind]
    rfl
  have hcount : (db.enrollments ++ [row]).countP
      (fun e => e.studentID == sid && e.offeringID == oid) = 1 := by
    rw [List.countP_append]
    have h0 : db.enrollments.countP
        (fun e => e.studentID == sid && e.offeringID == oid) = 0 := by
      rw [List.countP_eq_zero]
      intro e he
      simpa using hnew e he
    rw [h0]
    simp [row, List.countP_cons]
  by_cases h2 : off.currentEnrollment + 1 < off.maxStudents
  · have hdup1 : ((db.enrollments ++ [row]).any
        (fun e => e.studentID == sid && e.offeringID == oid)) = true := by
      rw [List.any_eq_true]
      exact ⟨row, by simp, by simp [row]⟩
    have h3 := enroll_student_duplicate
      ({ db with
          enrollments := db.enrollments ++ [row],
          offerings := applyEnrollTrigger db.offerings oid,
          nextEnrollmentID := db.nextEnrollmentID + 1 })
      sid oid _ hfind1 (by simpa using not_le.mpr h2) hdup1
    rw [h3]
    exact ⟨rfl, by rw [if_pos h2], hcount⟩
  · have h3 := enroll_student_full
      ({ db with
          enrollments := db.enrollments ++ [row],
          offerings := applyEnrollTrigger db.offerings oid,
          nextEnrollmentID := db.nextEnrollmentID + 1 })
      sid oid _ hfind1 (by simpa using not_lt.mp h2)
    rw [h3]
    exact ⟨rfl, by rw [if_neg h2], hcount⟩

/-- Witness for the amended C3: student 1 and offering 12 of the sample
store (two free seats, so the second call fails with the duplicate
error). -/
theorem enroll_twice_amended_witness :
    ∃ db₁ eid,
      enroll_student demoDB 1 12 = (db₁, Except.ok eid) ∧
      (enroll_student db₁ 1 12).1 = db₁ ∧
      (enroll_student db₁ 1 12).2 =
        Except.error (if off12.currentEnrollment + 1 < off12.maxStudents then
          DBError.duplicateEnrollment else DBError.capacityExceeded) ∧
      db₁.enrollments.countP
        (fun e => e.studentID == 1 && e.offeringID == 12) = 1 :=
  enroll_twice_amended demoDB 1 12 off12 (by decide) (by decide) (by decide)

/-- Claim C4: `UpdateGrade` with a grade outside `{A,B,C,D,F,P,W}` fails
with the invalid-grade error before touching the store: the returned
store is the caller's store, every row unchanged. -/
theorem update_grade_invalid_grade (db : DB) (eid : Nat) (g : String)
    (hg : g ∉ validGrades) :
    update_grade db eid g = (db, Except.error DBError.invalidGrade) := by
  unfold update_grade
  rw [if_pos hg]

/-- Witness for C4: grade `"Z"` on the sample store. -/
theorem update_grade_invalid_grade_witness :
    "Z" ∉ validGrades ∧
      update_grade demoDB 1 "Z" = (demoDB, Except.error DBError.invalidGrade) :=
  ⟨by decide, update_grade_invalid_grade demoDB 1 "Z" (by decide)⟩

/-- Claim C5: `Withdraw` updates Status to Withdrawn and Grade to `'W'`
only for rows currently in Status=Enrolled; when zero rows match — id
absent, or the enrollment already Completed or Withdrawn — it fails with
the conflated not-found error and alters no row. -/
theorem withdraw_conditional (db : DB) (eid : Nat) :
    ((∀ e ∈ db.enrollments,
        ¬(e.enrollmentID = eid ∧ e.status = EnrollmentStatus.enrolled)) →
      withdraw_from_course db eid =
        (db, Except.error DBError.enrollmentNotFoundOrCompleted)) ∧
    (∀ db' b, withdraw_from_course db eid = (db', Except.ok b) →
      (∃ e ∈ db.enrollments,
         e.enrollmentID = eid ∧ e.status = EnrollmentStatus.enrolled) ∧
      db'.enrollments = db.enrollments.map (fun e =>
        if e.enrollmentID = eid ∧ e.status = EnrollmentStatus.enrolled then
          { e with status := EnrollmentStatus.withdrawn, grade := some "W" }
        else e)) := by
  constructor
  · intro hzero
    have hcount0 : db.enrollments.countP (fun e =>
        e.enrollmentID == eid && e.status == EnrollmentStatus.enrolled) = 0 := by
      rw [List.countP_eq_zero]
      intro e he
      simpa using hzero e he
    unfold withdraw_from_course
    rw [if_pos hcount0]
  · intro db' b h
    unfold withdraw_from_course at h
    by_cases hc : db.enrollments.countP (fun e =>
        e.enrollmentID == eid && e.status == EnrollmentStatus.enrolled) = 0
    · rw [if_pos hc] at h
      simp at h
    · rw [if_neg hc] at h
      injection h with h1 h2
      subst h1
      constructor
      · obtain ⟨e, he, hpe⟩ := List.countP_pos_iff.mp (Nat.pos_of_ne_zero hc)
        exact ⟨e, he, by simpa using hpe⟩
      · exact List.map_congr_left (fun e _ => by
          by_cases h1 : e.enrollmentID = eid
          · by_cases h2 : e.status = EnrollmentStatus.enrolled
            · simp [h1, h2]
            · simp [h1, h2]
          · simp [h1])

/-- Witness for C5: withdrawing enrollment 1 (already Completed) fails and
leaves the sample store unchanged; withdrawing enrollment 3 (Enrolled)
performs the conditional update. -/
theorem withdraw_conditional_witness :
    withdraw_from_course demoDB 1 =
      (demoDB, Except.error DBError.enrollmentNotFoundOrCompleted) ∧
    (withdraw_from_course demoDB 3).1.enrollments =
      demoDB.enrollments.map (fun e =>
        if e.enrollmentID = 3 ∧ e.status = EnrollmentStatus.enrolled then
          { e with status := EnrollmentStatus.withdrawn, grade := some "W" }
        else e) :=
  ⟨(withdraw_conditional demoDB 1).1 (by decide),
   ((withdraw_conditional demoDB 3).2
      (withdraw_from_course demoDB 3).1 true (by decide)).2⟩

/-- Claim C6: a successful `Withdraw` leaves every `CourseOffering` field
(in particular `CurrentEnrollment`) unchanged, as well as every other
table and every non-matching Enrollment row. -/
theorem withdraw_no_counter_change (db : DB) (eid : Nat) (db' : DB)
    (b : Bool) (h : withdraw_from_course db eid = (db', Except.ok b)) :
    db'.offerings = db.offerings ∧ db'.students = db.students ∧
    db'.programs = db.programs ∧ db'.courses = db.courses ∧
    db'.nextEnrollmentID = db.nextEnrollmentID ∧
    db'.enrollments.length = db.enrollments.length ∧
    ∀ i (hi : i < db.enrollments.length) (hi' : i < db'.enrollments.length),
      ¬((db.enrollments.get ⟨i, hi⟩).enrollmentID = eid ∧
        (db.enrollments.get ⟨i, hi⟩).status = EnrollmentStatus.enrolled) →
      db'.enrollments.get ⟨i, hi'⟩ = db.enrollments.get ⟨i, hi⟩ := by
  unfold withdraw_from_course at h
  by_cases hc : db.enrollments.countP (fun e =>
      e.enrollmentID == eid && e.status == EnrollmentStatus.enrolled) = 0
  · rw [if_pos hc] at h
    simp at h
  · rw [if_neg hc] at h
    injection h with h1 h2
    subst h1
    refine ⟨rfl, rfl, rfl, rfl, rfl, by simp, ?_⟩
    intro i hi hi' hne
    simp only [List.get_eq_getElem, List.getElem_map]
    rw [if_neg (by simpa using hne)]

/-- Witness for C6: withdrawing enrollment 3 of the sample store does not
change the offerings table. -/
theorem withdraw_no_counter_change_witness :
    (withdraw_from_course demoDB 3).1.offerings = demoDB.offerings :=
  (withdraw_no_counter_change demoDB 3
    (withdraw_from_course demoDB 3).1 true (by decide)).1

/-- Claim C7: for a valid grade (including `P` and `W`), `UpdateGrade`
sets the matching enrollment's Grade and forces Status=Completed
regardless of its current Status, and fails with the not-found error
exactly when no enrollment with that id exists. -/
theorem update_grade_valid_spec (db : DB) (eid : Nat) (g : String)
    (hg : g ∈ validGrades) :
    ((∃ e ∈ db.enrollments, e.enrollmentID = eid) →
       update_grade db eid g =
         ({ db with enrollments := db.enrollments.map (fun e =>
             if e.enrollmentID = eid then
               { e with grade := some g, status := EnrollmentStatus.completed }
             else e) },
          Except.ok true)) ∧
    ((∀ e ∈ db.enrollments, e.enrollmentID ≠ eid) →
       update_grade db eid g = (db, Except.error DBError.enrollmentNotFound)) := by
  have hvalid : ¬ g ∉ validGrades := not_not_intro hg
  constructor
  · rintro ⟨e, he, heid⟩
    have hcount : ¬ db.enrollments.countP (fun e => e.enrollmentID == eid) = 0 := by
      have hpos : 0 < db.enrollments.countP (fun e => e.enrollmentID == eid) :=
        List.countP_pos_iff.mpr ⟨e, he, by simpa using heid⟩
      omega
    unfold update_grade
    rw [if_neg hvalid, if_neg hcount]
    have hmap : db.enrollments.map (fun e =>
        if e.enrollmentID == eid then
          { e with grade := some g, status := EnrollmentStatus.completed }
        else e) =
        db.enrollments.map (fun e =>
        if e.enrollmentID = eid then
          { e with grade := some g, status := EnrollmentStatus.completed }
        else e) :=
      List.map_congr_left (fun e _ => by
        by_cases h1 : e.enrollmentID = eid
        · simp [h1]
        · simp [h1])
    rw [hmap]
  · intro hnone
    have hcount0 : db.enrollments.countP (fun e => e.enrollmentID == eid) = 0 := by
      rw [List.countP_eq_zero]
      intro e he
      simpa using hnone e he
    unfold update_grade
    rw [if_neg hvalid, if_pos hcount0]

/-- Witness for C7: re-grading the already-Completed enrollment 2 of the
sample store with `P` succeeds, and updating the absent enrollment 99
fails with the not-found error. -/
theorem update_grade_valid_spec_witness :
    "P" ∈ validGrades ∧
    update_grade demoDB 2 "P" =
      ({ demoDB with enrollments := demoDB.enrollments.map (fun e =>
           if e.enrollmentID = 2 then
             { e with grade := some "P", status := EnrollmentStatus.completed }
           else e) },
       Except.ok true) ∧
    update_grade demoDB 99 "A" = (demoDB, Except.error DBError.enrollmentNotFound) :=
  ⟨by decide,
   (update_grade_valid_spec demoDB 2 "P" (by decide)).1 ⟨en2, by decide, by decide⟩,
   (update_grade_valid_spec demoDB 99 "A" (by decide)).2 (by decide)⟩

/-- Claim-side view for C8: the student's Enrollment rows carrying a
grade (`WHERE e.StudentID = ? AND e.Grade IS NOT NULL`). -/
def gradedEnrollmentsOf (db : DB) (sid : Nat) : List Enrollment :=
  db.enrollments.filter (fun e => e.studentID == sid && e.grade.isSome)

/-- Filtering before a `filterMap` is the same as guarding the mapped
function with the filter's predicate. -/
theorem filterMap_guard {α β : Type} (p : α → Bool) (f : α → Option β)
    (l : List α) :
    l.filterMap (fun a => if p a then f a else none) =
      (l.filter p).filterMap f := by
  induction l with
  | nil => rfl
  | cons a L ih =>
    by_cases h : p a = true
    · cases hfa : f a <;>
        simp [List.filterMap_cons, List.filter_cons, h, hfa, ih]
    · simp [List.filterMap_cons, List.filter_cons, h, ih]

/-- When every lookup succeeds, pairing each element with its looked-up
value and projecting back is the identity. -/
theorem filterMap_pair_fst {α β : Type} (g : α → Option β) (l : List α)
    (hok : ∀ a ∈ l, (g a).isSome) :
    (l.filterMap (fun a => (g a).map (fun b => (a, b)))).map Prod.fst = l := by
  induction l with
  | nil => rfl
  | cons a L ih =>
    obtain ⟨b, hb⟩ := Option.isSome_iff_exists.mp (hok a (by simp))
    simp [List.filterMap_cons, hb, ih (fun x hx => hok x (by simp [hx]))]

/-- Projecting the looked-up component of the pairs is the same as
mapping the lookup composed with the projection. -/
theorem filterMap_pair_snd {α β γ : Type} (g : α → Option β) (k : β → γ)
    (l : List α) :
    (l.filterMap (fun a => (g a).map (fun b => (a, b)))).map (fun r => k r.2) =
      l.filterMap (fun a => (g a).map k) := by
  induction l with
  | nil => rfl
  | cons a L ih =>
    cases hb : g a <;> simp [List.filterMap_cons, hb, ih]

/-- Claim C8: `GPA(studentID)` aggregates exactly the student's graded
Enrollment rows — it returns their count, the sum of their courses'
credit weights, and the unweighted average of the mapped grade points
(grades outside A–F are dropped from the average, not counted as zero)
rounded to two decimals; with zero graded enrollments the GPA is absent,
not `0.0`, and the call still returns a row. -/
theorem calculate_gpa_spec (db : DB) (sid : Nat)
    (hok : ∀ e ∈ gradedEnrollmentsOf db sid, (enrollmentCourse db e).isSome) :
    (calculate_gpa db sid).coursesCompleted =
      (gradedEnrollmentsOf db sid).length ∧
    (calculate_gpa db sid).totalCredits =
      (if gradedEnrollmentsOf db sid = [] then none
       else some (((gradedEnrollmentsOf db sid).filterMap
         (fun e => (enrollmentCourse db e).map (fun c => c.credits))).sum)) ∧
    (calculate_gpa db sid).gpa =
      (let pts := (gradedEnrollmentsOf db sid).filterMap
         (fun e => e.grade.bind gradePoints)
       if pts = [] then none
       else some (round2 (pts.sum / (pts.length : ℚ)))) ∧
    (gradedEnrollmentsOf db sid = [] → (calculate_gpa db sid).gpa = none) := by
  have hrows : db.enrollments.filterMap (gpaJoinFun db sid) =
      (gradedEnrollmentsOf db sid).filterMap
        (fun e => (enrollmentCourse db e).map (fun c => (e, c))) := by
    unfold gradedEnrollmentsOf
    rw [← filterMap_guard]
    rfl
  have hfst : (db.enrollments.filterMap (gpaJoinFun db sid)).map Prod.fst =
      gradedEnrollmentsOf db sid := by
    rw [hrows]
    exact filterMap_pair_fst _ _ hok
  have hlen : (db.enrollments.filterMap (gpaJoinFun db sid)).length =
      (gradedEnrollmentsOf db sid).length := by
    rw [← hfst, List.length_map]
  have hcred : (db.enrollments.filterMap (gpaJoinFun db sid)).map
      (fun r => r.2.credits) =
      (gradedEnrollmentsOf db sid).filterMap
        (fun e => (enrollmentCourse db e).map (fun c => c.credits)) := by
    rw [hrows]
    exact filterMap_pair_snd _ _ _
  have hpts : (db.enrollments.filterMap (gpaJoinFun db sid)).filterMap
      (fun r => r.1.grade.bind gradePoints) =
      (gradedEnrollmentsOf db sid).filterMap
        (fun e => e.grade.bind gradePoints) := by
    conv_rhs => rw [← hfst]
    rw [List.filterMap_map]
    rfl
  have hnil : db.enrollments.filterMap (gpaJoinFun db sid) = [] ↔
      gradedEnrollmentsOf db sid = [] := by
    rw [← List.length_eq_zero, ← List.length_eq_zero, hlen]
  refine ⟨?_, ?_, ?_, ?_⟩
  · simpa [calculate_gpa] using hlen
  · simp only [calculate_gpa, hcred]
    by_cases h : gradedEnrollmentsOf db sid = []
    · simp [h, hnil.mpr h]
    · rw [if_neg (by simpa [List.isEmpty_iff] using hnil.not.mpr h),
        if_neg h]
  · simp only [calculate_gpa, hpts]
    by_cases h : (gradedEnrollmentsOf db sid).filterMap
        (fun e => e.grade.bind gradePoints) = []
    · simp [h]
    · rw [if_neg (by simpa [List.isEmpty_iff] using h),
        if_neg h]
  · intro h
    have hp : (gradedEnrollmentsOf db sid).filterMap
        (fun e => e.grade.bind gradePoints) = [] := by
      rw [h]; rfl
    simp [calculate_gpa, hpts, hp]

/-- Witness for C8: student 1 of the sample store (grades A and B, 3- and
4-credit courses). -/
theorem calculate_gpa_spec_witness :
    (∀ e ∈ gradedEnrollmentsOf demoDB 1, (enrollmentCourse demoDB e).isSome) ∧
    (calculate_gpa demoDB 1).coursesCompleted =
      (gradedEnrollmentsOf demoDB 1).length :=
  ⟨by decide, (calculate_gpa_spec demoDB 1 (by decide)).1⟩

/-- Claim-side view for C9: the student's NULL-excluding mapped-grade
average, rounded to two decimals, absent when no enrollment of the
student maps to grade points. -/
def gpaOfStudent (db : DB) (sid : Nat) : Option ℚ :=
  let pts := db.enrollments.filterMap (fun e =>
    if e.studentID == sid then e.grade.bind gradePoints else none)
  if pts = [] then none else some (round2 (pts.sum / (pts.length : ℚ)))

/-- Claim-side view for C9: how many of the student's enrollments carry
grade `F`. -/
def failedCountOf (db : DB) (sid : Nat) : Nat :=
  db.enrollments.countP (fun e => e.studentID == sid && e.grade == some "F")

/-- The grade-point list built from the student's grade-bearing rows is
the same as the one built from all rows, because unmapped and absent
grades drop out either way. -/
theorem pts_filter_eq (es : List Enrollment) (sid : Nat) :
    (es.filter (fun e => e.studentID == sid && e.grade.isSome)).filterMap
      (fun e => e.grade.bind gradePoints) =
    es.filterMap (fun e =>
      if e.studentID == sid then e.grade.bind gradePoints else none) := by
  induction es with
  | nil => rfl
  | cons e L ih =>
    by_cases h1 : e.studentID = sid
    · cases hg : e.grade with
      | none => simp [List.filter_cons, List.filterMap_cons, h1, hg, ih]
      | some g =>
        cases hgp : gradePoints g <;>
          simp [List.filter_cons, List.filterMap_cons, h1, hg, hgp, ih]
    · simp [List.filter_cons, List.filterMap_cons, h1, ih]

/-- What a produced risk row contains: it belongs to an Active student,
its GPA is the student's rounded mapped-grade average, that GPA is below
the threshold, and its failed-course field counts the student's F
grades. -/
theorem riskRowOf_some_fields (db : DB) (t : ℚ) (s : Student) (r : RiskRow)
    (h : riskRowOf db t s = some r) :
    r.studentID = s.studentID ∧ s.status = "Active" ∧
    gpaOfStudent db s.studentID = some r.gpa ∧ r.gpa < t ∧
    r.failedCourses = failedCountOf db s.studentID := by
  simp only [riskRowOf] at h
  split at h
  case isFalse => exact absurd h (by simp)
  case isTrue hs =>
  split at h
  case h_1 => exact absurd h (by simp)
  case h_2 p hf =>
  split at h
  case isTrue => exact absurd h (by simp)
  case isFalse hne =>
  split at h
  case isTrue => exact absurd h (by simp)
  case isFalse hpts =>
  split at h
  case isFalse => exact absurd h (by simp)
  case isTrue hlt =>
  injection h with h
  subst h
  have hpts' : (db.enrollments.filter
      (fun e => e.studentID == s.studentID && e.grade.isSome)).filterMap
      (fun e => e.grade.bind gradePoints) ≠ [] := by
    simpa [List.isEmpty_iff] using hpts
  refine ⟨rfl, by simpa using hs, ?_, hlt, ?_⟩
  · unfold gpaOfStudent
    rw [← pts_filter_eq, if_neg hpts']
  · unfold failedCountOf
    rw [List.countP_filter]
    refine List.countP_congr (fun e _ => ?_)
    by_cases h1 : e.studentID = s.studentID
    · by_cases h2 : e.grade = some "F"
      · simp [h1, h2]
      · simp [h1, h2]
    · simp [h1]

/-- Any Active student (with a resolvable program row) whose rounded
mapped-grade average exists and lies below the threshold produces a risk
row. -/
theorem riskRowOf_isSome_of (db : DB) (t : ℚ) (s : Student)
    (hp : (db.programs.find? (fun p => p.programID == s.programID)).isSome)
    (hs : s.status = "Active") (g : ℚ)
    (hg : gpaOfStudent db s.studentID = some g) (hlt : g < t) :
    ∃ r, riskRowOf db t s = some r ∧ r.studentID = s.studentID := by
  obtain ⟨p, hf⟩ := Option.isSome_iff_exists.mp hp
  have hpts : (db.enrollments.filterMap (fun e =>
      if e.studentID == s.studentID then e.grade.bind gradePoints else none)) ≠ [] := by
    intro hnil
    rw [gpaOfStudent] at hg
    simp only [hnil] at hg
    simp at hg
  have hgval : g = round2
      (((db.enrollments.filterMap (fun e =>
          if e.studentID == s.studentID then e.grade.bind gradePoints else none)).sum) /
        (((db.enrollments.filterMap (fun e =>
          if e.studentID == s.studentID then e.grade.bind gradePoints else none)).length : ℚ))) := by
    rw [gpaOfStudent] at hg
    simp only [if_neg hpts] at hg
    exact (Option.some.injEq _ _ ▸ hg).symm
  have hpts2 : (db.enrollments.filter
      (fun e => e.studentID == s.studentID && e.grade.isSome)).filterMap
      (fun e => e.grade.bind gradePoints) ≠ [] := by
    rw [pts_filter_eq]
    exact hpts
  have hgraded : (db.enrollments.filter
      (fun e => e.studentID == s.studentID && e.grade.isSome)) ≠ [] := by
    intro hnil
    apply hpts2
    rw [hnil]
    rfl
  simp only [riskRowOf]
  rw [if_pos (by simpa using hs)]
  simp only [hf]
  rw [if_neg (by simpa [List.isEmpty_iff] using hgraded)]
  rw [if_neg (by simpa [List.isEmpty_iff] using hpts2)]
  rw [if_pos (by rw [pts_filter_eq, ← hgval]; exact hlt)]
  exact ⟨_, rfl, rfl⟩

/-- Claim C9: `StudentsAtRisk(threshold)` contains exactly the Active
students whose NULL-excluding mapped-grade average exists (so students
with no graded enrollment are excluded) and is strictly below the
threshold; every returned row carries the student's GPA and F-graded
course count, and the result is ordered ascending by GPA. -/
theorem students_at_risk_spec (db : DB) (t : ℚ)
    (hnodup : (db.students.map (fun s => s.studentID)).Nodup)
    (hprog : ∀ s ∈ db.students, s.status = "Active" →
      (db.programs.find? (fun p => p.programID == s.programID)).isSome) :
    (∀ s ∈ db.students,
      ((∃ r ∈ students_at_risk db t, r.studentID = s.studentID) ↔
        (s.status = "Active" ∧
          ∃ g, gpaOfStudent db s.studentID = some g ∧ g < t))) ∧
    (∀ r ∈ students_at_risk db t,
      (∃ s ∈ db.students, s.studentID = r.studentID ∧ s.status = "Active") ∧
      gpaOfStudent db r.studentID = some r.gpa ∧ r.gpa < t ∧
      r.failedCourses = failedCountOf db r.studentID) ∧
    (students_at_risk db t).Sorted riskLE := by
  have hmem : ∀ r, r ∈ students_at_risk db t ↔
      ∃ s, s ∈ db.students ∧ riskRowOf db t s = some r := by
    intro r
    rw [students_at_risk, List.mem_insertionSort, List.mem_filterMap]
  refine ⟨?_, ?_, ?_⟩
  · intro s hsmem
    constructor
    · rintro ⟨r, hr, hid⟩
      obtain ⟨s', hs'mem, hs'⟩ := (hmem r).mp hr
      obtain ⟨hid', hact', hgpa', hlt', _⟩ := riskRowOf_some_fields db t s' r hs'
      have hss : s' = s :=
        List.inj_on_of_nodup_map hnodup hs'mem hsmem (by rw [← hid', hid])
      subst hss
      exact ⟨hact', r.gpa, hgpa', hlt'⟩
    · rintro ⟨hact, g, hg, hlt⟩
      obtain ⟨r, hr, hid⟩ :=
        riskRowOf_isSome_of db t s (hprog s hsmem hact) hact g hg hlt
      exact ⟨r, (hmem r).mpr ⟨s, hsmem, hr⟩, hid⟩
  · intro r hr
    obtain ⟨s, hsmem, hs⟩ := (hmem r).mp hr
    obtain ⟨hid, hact, hgpa, hlt, hfail⟩ := riskRowOf_some_fields db t s r hs
    rw [hid]
    exact ⟨⟨s, hsmem, rfl, hact⟩, hgpa, hlt, hfail⟩
  · exact List.sorted_insertionSort riskLE _

/-- Witness for C9 at the sample store with threshold 4: student 1 (GPA
3.5 from grades A and B) is reported, and the reported rows carry the
claimed fields. -/
theorem students_at_risk_spec_witness :
    (∃ r ∈ students_at_risk demoDB 4, r.studentID = st1.studentID) ↔
      (st1.status = "Active" ∧
        ∃ g, gpaOfStudent demoDB st1.studentID = some g ∧ g < 4) :=
  (students_at_risk_spec demoDB 4 (by decide) (by decide)).1 st1 (by decide)

/-- A left join over a nonempty offering list yields at least one row. -/
theorem leftJoinRows_ne_nil (o : CourseOffering) (rest : List CourseOffering)
    (es : List Enrollment) : leftJoinRows (o :: rest) es ≠ [] := by
  simp only [leftJoinRows]
  intro h
  rcases List.append_eq_nil.mp h with ⟨h1, _⟩
  by_cases hm : (es.filter (fun e => e.offeringID == o.offeringID)).isEmpty
  · rw [if_pos hm] at h1
    simp at h1
  · rw [if_neg hm] at h1
    rw [List.map_eq_nil_iff] at h1
    rw [h1] at hm
    simp at hm

/-- Summing a list of one constant per element. -/
theorem sum_map_const {α : Type} (l : List α) (c : Nat) :
    (l.map (fun _ => c)).sum = l.length * c := by
  induction l with
  | nil => simp
  | cons a L ih =>
    simp only [List.map_cons, List.sum_cons, List.length_cons, ih]
    ring

/-- Summing an offering-side column over the left-join rows multiplies
each offering's value by its enrollment count (once when it has none):
the fan-out of the `LEFT JOIN`. -/
theorem leftJoinRows_sum_fst (offs : List CourseOffering)
    (es : List Enrollment) (g : CourseOffering → Nat) :
    ((leftJoinRows offs es).map (fun r => g r.1)).sum =
      (offs.map (fun o =>
        g o * max 1 (es.countP (fun e => e.offeringID == o.offeringID)))).sum := by
  induction offs with
  | nil => rfl
  | cons o rest ih =>
    simp only [leftJoinRows, List.map_append, List.sum_append, List.map_cons,
      List.sum_cons, ih]
    congr 1
    by_cases hm : (es.filter (fun e => e.offeringID == o.offeringID)).isEmpty
    · rw [if_pos hm]
      have hc : es.countP (fun e => e.offeringID == o.offeringID) = 0 := by
        rw [List.countP_eq_length_filter, List.isEmpty_iff.mp hm]
        rfl
      simp [hc]
    · rw [if_neg hm]
      have hne : (es.filter (fun e => e.offeringID == o.offeringID)) ≠ [] := by
        simpa [List.isEmpty_iff] using hm
      have hc : es.countP (fun e => e.offeringID == o.offeringID) =
          (es.filter (fun e => e.offeringID == o.offeringID)).length :=
        List.countP_eq_length_filter _ _
      have hpos : 1 ≤ es.countP (fun e => e.offeringID == o.offeringID) := by
        rw [hc]
        exact List.length_pos.mpr hne
      rw [List.map_map]
      have hconst : ((es.filter (fun e => e.offeringID == o.offeringID)).map
          ((fun r : CourseOffering × Option Enrollment => g r.1) ∘
            (fun e => (o, some e)))).sum =
          ((es.filter (fun e => e.offeringID == o.offeringID)).map
            (fun _ => g o)).sum := rfl
      rw [hconst, sum_map_const, Nat.max_eq_right hpos, hc]
      ring

/-- The enrollment side of the left-join rows has exactly one entry per
matching enrollment of each offering. -/
theorem leftJoinRows_snd_length (offs : List CourseOffering)
    (es : List Enrollment) :
    ((leftJoinRows offs es).filterMap (fun r => r.2)).length =
      (offs.map (fun o =>
        es.countP (fun e => e.offeringID == o.offeringID))).sum := by
  induction offs with
  | nil => rfl
  | cons o rest ih =>
    simp only [leftJoinRows, List.filterMap_append, List.length_append,
      List.map_cons, List.sum_cons, ih]
    congr 1
    by_cases hm : (es.filter (fun e => e.offeringID == o.offeringID)).isEmpty
    · rw [if_pos hm]
      rw [List.countP_eq_length_filter, List.isEmpty_iff.mp hm]
      rfl
    · rw [if_neg hm, List.filterMap_map]
      have h1 : ((es.filter (fun e => e.offeringID == o.offeringID)).filterMap
          ((fun r : CourseOffering × Option Enrollment => r.2) ∘
            (fun e => (o, some e)))) =
          (es.filter (fun e => e.offeringID == o.offeringID)).filterMap some := rfl
      rw [h1, List.filterMap_some, List.countP_eq_length_filter]

/-- Membership in the left-join row set, for rows carrying an
enrollment. -/
theorem mem_leftJoinRows_some (offs : List CourseOffering)
    (es : List Enrollment) (o : CourseOffering) (e : Enrollment) :
    (o, some e) ∈ leftJoinRows offs es ↔
      o ∈ offs ∧ e ∈ es ∧ e.offeringID = o.offeringID := by
  induction offs with
  | nil => simp [leftJoinRows]
  | cons o' rest ih =>
    simp only [leftJoinRows, List.mem_append, ih, List.mem_cons]
    by_cases hm : (es.filter (fun x => x.offeringID == o'.offeringID)).isEmpty
    · rw [if_pos hm]
      have hnone : ∀ x ∈ es, ¬ x.offeringID = o'.offeringID := by
        intro x hx hc
        have : x ∈ es.filter (fun x => x.offeringID == o'.offeringID) :=
          List.mem_filter.mpr ⟨hx, by simpa using hc⟩
        rw [List.isEmpty_iff.mp hm] at this
        simp at this
      constructor
      · rintro (hbad | h)
        · simp at hbad
        · exact ⟨Or.inr h.1, h.2⟩
      · rintro ⟨ho | ho, he, hid⟩
        · subst ho
          exact absurd hid (hnone e he)
        · exact Or.inr ⟨ho, he, hid⟩
    · rw [if_neg hm]
      constructor
      · rintro (hhead | h)
        · obtain ⟨x, hx, hpair⟩ := List.mem_map.mp hhead
          obtain ⟨hxe, hxo⟩ := List.mem_filter.mp hx
          rw [Prod.mk.injEq] at hpair
          obtain ⟨ho, hee⟩ := hpair
          cases hee
          exact ⟨Or.inl ho.symm, hxe, by simpa [ho] using hxo⟩
        · exact ⟨Or.inr h.1, h.2⟩
      · rintro ⟨ho | ho, he, hid⟩
        · subst ho
          exact Or.inl (List.mem_map.mpr
            ⟨e, List.mem_filter.mpr ⟨he, by simpa using hid⟩, rfl⟩)
        · exact Or.inr ⟨ho, he, hid⟩

/-- Every left-join row's offering component comes from the offering
list. -/
theorem fst_mem_leftJoinRows (offs : List CourseOffering)
    (es : List Enrollment) :
    ∀ r ∈ leftJoinRows offs es, r.1 ∈ offs := by
  induction offs with
  | nil => simp [leftJoinRows]
  | cons o rest ih =>
    intro r hr
    simp only [leftJoinRows, List.mem_append] at hr
    rcases hr with hhead | htail
    · by_cases hm : (es.filter (fun e => e.offeringID == o.offeringID)).isEmpty
      · rw [if_pos hm] at hhead
        simp only [List.mem_singleton] at hhead
        rw [hhead]
        exact List.mem_cons_self o rest
      · rw [if_neg hm] at hhead
        obtain ⟨x, _, hpair⟩ := List.mem_map.mp hhead
        rw [← hpair]
        exact List.mem_cons_self o rest
    · exact List.mem_cons_of_mem o (ih r htail)

/-- Every offering produces at least one left-join row. -/
theorem exists_leftJoinRow (offs : List CourseOffering) (es : List Enrollment)
    (o : CourseOffering) (ho : o ∈ offs) :
    ∃ r ∈ leftJoinRows offs es, r.1 = o := by
  induction offs with
  | nil => simp at ho
  | cons o' rest ih =>
    rcases List.mem_cons.mp ho with ho' | ho'
    · subst ho'
      by_cases hm : (es.filter (fun e => e.offeringID == o.offeringID)).isEmpty
      · refine ⟨(o, none), ?_, rfl⟩
        simp only [leftJoinRows, List.mem_append]
        exact Or.inl (by rw [if_pos hm]; simp)
      · have hne : (es.filter (fun e => e.offeringID == o.offeringID)) ≠ [] := by
          simpa [List.isEmpty_iff] using hm
        obtain ⟨e, he⟩ := List.exists_mem_of_ne_nil _ hne
        refine ⟨(o, some e), ?_, rfl⟩
        simp only [leftJoinRows, List.mem_append]
        exact Or.inl (by rw [if_neg hm]; exact List.mem_map.mpr ⟨e, he, rfl⟩)
    · obtain ⟨r, hr, hfst⟩ := ih ho'
      refine ⟨r, ?_, hfst⟩
      simp only [leftJoinRows, List.mem_append]
      exact Or.inr hr

/-- Two lists with the same members have deduplicated lists of the same
length. -/
theorem dedup_length_eq_of_mem_iff {α : Type} [DecidableEq α]
    (a b : List α) (h : ∀ x, x ∈ a ↔ x ∈ b) :
    a.dedup.length = b.dedup.length := by
  rw [← List.card_toFinset, ← List.card_toFinset]
  congr 1
  ext x
  rw [List.mem_toFinset, List.mem_toFinset]
  exact h x

/-- The offering identifiers seen across the left-join rows are exactly
those of the offering list. -/
theorem mem_leftJoinRows_offeringID (offs : List CourseOffering)
    (es : List Enrollment) (x : Nat) :
    (x ∈ (leftJoinRows offs es).map (fun r => r.1.offeringID)) ↔
      x ∈ offs.map (fun o => o.offeringID) := by
  constructor
  · intro hx
    obtain ⟨r, hr, hid⟩ := List.mem_map.mp hx
    exact List.mem_map.mpr ⟨r.1, fst_mem_leftJoinRows offs es r hr, hid⟩
  · intro hx
    obtain ⟨o, ho, hid⟩ := List.mem_map.mp hx
    obtain ⟨r, hr, hfst⟩ := exists_leftJoinRow offs es o ho
    exact List.mem_map.mpr ⟨r, hr, by rw [hfst, hid]⟩

/-- The student identifiers seen across the left-join rows are exactly
those of the enrollments belonging to one of the offerings. -/
theorem mem_leftJoinRows_studentID (offs : List CourseOffering)
    (es : List Enrollment) (x : Nat) :
    (x ∈ (leftJoinRows offs es).filterMap
        (fun r => r.2.map (fun e => e.studentID))) ↔
      x ∈ (es.filter (fun e =>
        offs.any (fun o => o.offeringID == e.offeringID))).map
        (fun e => e.studentID) := by
  rw [List.mem_filterMap, List.mem_map]
  constructor
  · rintro ⟨⟨o, oe⟩, hmem, hmap⟩
    cases oe with
    | none => simp at hmap
    | some e =>
      have hsid : e.studentID = x := by simpa using hmap
      obtain ⟨ho, he, hid⟩ := (mem_leftJoinRows_some offs es o e).mp hmem
      refine ⟨e, List.mem_filter.mpr ⟨he, ?_⟩, hsid⟩
      rw [List.any_eq_true]
      exact ⟨o, ho, by simpa using hid.symm⟩
  · rintro ⟨e, hfe, hsid⟩
    obtain ⟨he, hany⟩ := List.mem_filter.mp hfe
    rw [List.any_eq_true] at hany
    obtain ⟨o, ho, hoe⟩ := hany
    refine ⟨(o, some e), (mem_leftJoinRows_some offs es o e).mpr
      ⟨ho, he, by simp only [beq_iff_eq] at hoe; exact hoe.symm⟩,
      by simpa using hsid⟩

/-- Counterexample to claim C10 as stated: in the sample store the Fall
2024 offerings have `MaxStudents` summing to 15, but the report's
`TotalCapacity` is 25 — the `LEFT JOIN` counts each offering's capacity
once per enrollment row, not once per offering. -/
theorem semester_report_counterexample :
    (semester_enrollment_report demoDB "Fall" 2024).totalCapacity = some 25 ∧
    ((demoDB.offerings.filter (fun o =>
        o.semester == "Fall" && o.year == 2024)).map
      (fun o => o.maxStudents)).sum = 15 ∧
    (semester_enrollment_report demoDB "Fall" 2024).totalCapacity ≠
      some (((demoDB.offerings.filter (fun o =>
          o.semester == "Fall" && o.year == 2024)).map
        (fun o => o.maxStudents)).sum) :=
  ⟨by decide, by decide, by decide⟩

/-- Claim C10, amended: the report's distinct-offering, distinct-student
and total-enrollment counts are as claimed, but — because the query sums
offering columns over the `LEFT JOIN` rows — `TotalCapacity` and
`TotalEnrolled` weight each offering's `MaxStudents` and
`CurrentEnrollment` by its number of Enrollment rows (counted once when
it has none), and the fill rate is the rounded percentage ratio of these
two weighted sums (absent when there are no offerings or the weighted
capacity is zero). -/
theorem semester_report_amended (db : DB) (sem : String) (yr : Int) :
    (semester_enrollment_report db sem yr).coursesOffered =
      (((db.offerings.filter (fun o => o.semester == sem && o.year == yr)).map
        (fun o => o.offeringID)).dedup).length ∧
    (semester_enrollment_report db sem yr).uniqueStudents =
      (((db.enrollments.filter (fun e =>
          (db.offerings.filter (fun o => o.semester == sem && o.year == yr)).any
            (fun o => o.offeringID == e.offeringID))).map
        (fun e => e.studentID)).dedup).length ∧
    (semester_enrollment_report db sem yr).totalEnrollments =
      ((db.offerings.filter (fun o => o.semester == sem && o.year == yr)).map
        (fun o => db.enrollments.countP
          (fun e => e.offeringID == o.offeringID))).sum ∧
    (semester_enrollment_report db sem yr).totalCapacity =
      (if db.offerings.filter (fun o => o.semester == sem && o.year == yr) = []
       then none
       else some
        (((db.offerings.filter (fun o => o.semester == sem && o.year == yr)).map
          (fun o => o.maxStudents * max 1 (db.enrollments.countP
            (fun e => e.offeringID == o.offeringID)))).sum)) ∧
    (semester_enrollment_report db sem yr).totalEnrolled =
      (if db.offerings.filter (fun o => o.semester == sem && o.year == yr) = []
       then none
       else some
        (((db.offerings.filter (fun o => o.semester == sem && o.year == yr)).map
          (fun o => o.currentEnrollment * max 1 (db.enrollments.countP
            (fun e => e.offeringID == o.offeringID)))).sum)) ∧
    (semester_enrollment_report db sem yr).overallFillRate =
      (if db.offerings.filter (fun o => o.semester == sem && o.year == yr) = [] ∨
          ((db.offerings.filter (fun o => o.semester == sem && o.year == yr)).map
            (fun o => o.maxStudents * max 1 (db.enrollments.countP
              (fun e => e.offeringID == o.offeringID)))).sum = 0
       then none
       else some (round1
        ((((db.offerings.filter (fun o => o.semester == sem && o.year == yr)).map
            (fun o => o.currentEnrollment * max 1 (db.enrollments.countP
              (fun e => e.offeringID == o.offeringID)))).sum : ℚ) /
          (((db.offerings.filter (fun o => o.semester == sem && o.year == yr)).map
            (fun o => o.maxStudents * max 1 (db.enrollments.countP
              (fun e => e.offeringID == o.offeringID)))).sum : ℚ) * 100))) := by
  have hnil : leftJoinRows
      (db.offerings.filter (fun o => o.semester == sem && o.year == yr))
      db.enrollments = [] ↔
      db.offerings.filter (fun o => o.semester == sem && o.year == yr) = [] := by
    cases hoffs : db.offerings.filter (fun o => o.semester == sem && o.year == yr) with
    | nil => simp [leftJoinRows]
    | cons o rest =>
      simp only [leftJoinRows_ne_nil o rest db.enrollments, false_iff]
      intro hc
      exact List.cons_ne_nil o rest hc
  have hcap := leftJoinRows_sum_fst
    (db.offerings.filter (fun o => o.semester == sem && o.year == yr))
    db.enrollments (fun o => o.maxStudents)
  have henr := leftJoinRows_sum_fst
    (db.offerings.filter (fun o => o.semester == sem && o.year == yr))
    db.enrollments (fun o => o.currentEnrollment)
  refine ⟨?_, ?_, ?_, ?_, ?_, ?_⟩
  · exact dedup_length_eq_of_mem_iff _ _ (mem_leftJoinRows_offeringID _ _)
  · exact dedup_length_eq_of_mem_iff _ _ (mem_leftJoinRows_studentID _ _)
  · exact leftJoinRows_snd_length _ _
  · simp only [semester_enrollment_report, hcap]
    by_cases h : db.offerings.filter (fun o => o.semester == sem && o.year == yr) = []
    · rw [if_pos (List.isEmpty_iff.mpr (hnil.mpr h)), if_pos h]
    · rw [if_neg (fun hc => (hnil.not.mpr h) (List.isEmpty_iff.mp hc)), if_neg h]
  · simp only [semester_enrollment_report, henr]
    by_cases h : db.offerings.filter (fun o => o.semester == sem && o.year == yr) = []
    · rw [if_pos (List.isEmpty_iff.mpr (hnil.mpr h)), if_pos h]
    · rw [if_neg (fun hc => (hnil.not.mpr h) (List.isEmpty_iff.mp hc)), if_neg h]
  · simp only [semester_enrollment_report, hcap, henr]
    by_cases h : db.offerings.filter (fun o => o.semester == sem && o.year == yr) = []
    · rw [if_pos (Or.inl (List.isEmpty_iff.mpr (hnil.mpr h))),
        if_pos (Or.inl h)]
    · by_cases hz : ((db.offerings.filter
          (fun o => o.semester == sem && o.year == yr)).map
          (fun o => o.maxStudents * max 1 (db.enrollments.countP
            (fun e => e.offeringID == o.offeringID)))).sum = 0
      · rw [if_pos (Or.inr hz), if_pos (Or.inr hz)]
      · rw [if_neg ?_, if_neg ?_]
        · rintro (hc | hc)
          · exact h hc
          · exact hz hc
        · rintro (hc | hc)
          · exact (hnil.not.mpr h) (List.isEmpty_iff.mp hc)
          · exact hz hc

end UniversityDB
